import Mathlib

/-!
Verification of the FHIR R4 resource-server sketch (src/fhir-api.ts) against its
natural-language specification.

The TypeScript source is a tutorial-level sketch: the controller methods are
stubs (their bodies read "Implementation for storage" etc.), while the validator
`validateResource` and the search-parameter builder `createSearchParameters`
are implemented.  We embed the implemented code faithfully, and model the
absent Resource Store Controller from the specification (definitions whose doc
comment starts with "Modelled from the spec:").
-/

namespace Interop

/-- One entry of `Patient.name` in src/fhir-api.ts (lines 121-124): optional
given-name list and optional family name.  All fields optional, as in the
TypeScript interface. -/
structure HumanName where
  given : Option (List String)
  family : Option String
deriving DecidableEq, Repr

/-- The `meta` envelope of a FHIR resource (src/fhir-api.ts lines 113-116). -/
structure ResourceMeta where
  versionId : Option String
  lastUpdated : Option String
deriving DecidableEq, Repr

/-- A FHIR resource as handled by the sketch: the common envelope of
src/fhir-api.ts lines 110-117 together with the Patient-specific fields of
lines 119-127.  Since the code builds plain JavaScript objects (`return {} as T`),
every field, including `resourceType`, is modelled as optional. -/
structure FHIRResource where
  resourceType : Option String
  id : Option String
  meta : Option ResourceMeta
  name : Option (List HumanName)
  birthDate : Option String
  gender : Option String
deriving DecidableEq, Repr

/-- The flat error taxonomy of spec section 7.  The source throws untyped
`Error` values; the taxonomy names the failure kinds the spec assigns them. -/
inductive FHIRError where
  | missingField
  | schemaViolation
  | profileViolation
  | invalidState
  | notFound
  | gone
  | conflictVersion
  | unsupportedParameter
deriving DecidableEq, Repr

/-- The resource object returned by the stubbed `read` (src/fhir-api.ts line 26,
`return {} as T`): a value with no fields set. -/
def emptyResource : FHIRResource :=
  { resourceType := none, id := none, meta := none, name := none,
    birthDate := none, gender := none }

/-- Function `validateResource` from src/fhir-api.ts lines 130-135: throws
"Resource type is required" when `!resource.resourceType` holds, i.e. when the
field is absent or the empty string (both falsy in JavaScript); otherwise
returns normally.  The TypeScript function receives the resource by reference
and its body contains no assignment, so we model it as returning the verdict
together with the candidate as it stands after the call. -/
def validateResource (resource : FHIRResource) :
    Except FHIRError Unit × FHIRResource :=
  if resource.resourceType = none ∨ resource.resourceType = some "" then
    (Except.error FHIRError.missingField, resource)
  else
    (Except.ok (), resource)

/-- A normalized search parameter as built by `createSearchParameters`
(src/fhir-api.ts lines 138-143): a name/value record. -/
structure SearchParameter where
  name : String
  value : String
deriving DecidableEq, Repr

/-- Function `createSearchParameters` from src/fhir-api.ts lines 138-143: maps every
entry of the parameter record to a name/value pair.  No entry is rejected. -/
def createSearchParameters (params : List (String × String)) :
    List SearchParameter :=
  params.map (fun kv => { name := kv.1, value := kv.2 })

/-- Method `FHIRResourceController.create` (src/fhir-api.ts lines 16-21): awaits
`validateResource` (an exception propagates) and returns the input resource
unchanged; the storage step is absent ("Implementation for storage"). -/
def FHIRResourceController.create (resource : FHIRResource) :
    Except FHIRError FHIRResource :=
  match validateResource resource with
  | (Except.ok _, r) => Except.ok r
  | (Except.error e, _) => Except.error e

/-- Method `FHIRResourceController.read` (src/fhir-api.ts lines 24-27): returns the
empty object for every id ("Implementation for retrieval"). -/
def FHIRResourceController.read (_id : String) : Except FHIRError FHIRResource :=
  Except.ok emptyResource

/-- Method `FHIRResourceController.search` (src/fhir-api.ts lines 30-34): builds the
search parameters, discards them, and returns the empty list. -/
def FHIRResourceController.search (params : List (String × String)) :
    Except FHIRError (List FHIRResource) :=
  let _searchParams := createSearchParameters params
  Except.ok []

/-- Method `FHIRResourceController.update` (src/fhir-api.ts lines 37-41): validates
and returns the input resource unchanged ("Implementation for update"). -/
def FHIRResourceController.update (_id : String) (resource : FHIRResource) :
    Except FHIRError FHIRResource :=
  match validateResource resource with
  | (Except.ok _, r) => Except.ok r
  | (Except.error e, _) => Except.error e

/-- Method `FHIRResourceController.delete` (src/fhir-api.ts lines 44-46): empty body,
returns normally for every id ("Implementation for deletion"). -/
def FHIRResourceController.delete (_id : String) : Except FHIRError Unit :=
  Except.ok ()

/-- Method `PatientController.read`: inherited unchanged from the base controller
(src/fhir-api.ts lines 50-63 override nothing of `read`). -/
def PatientController.read (id : String) : Except FHIRError FHIRResource :=
  FHIRResourceController.read id

/-- Method `PatientController.searchByName` (src/fhir-api.ts lines 54-56). -/
def PatientController.searchByName (n : String) :
    Except FHIRError (List FHIRResource) :=
  FHIRResourceController.search [("name", n)]

/-- Method `PatientController.getPatientHistory` (src/fhir-api.ts lines 59-62):
returns the empty list for every id ("Implementation for version history"). -/
def PatientController.getPatientHistory (_id : String) :
    Except FHIRError (List FHIRResource) :=
  Except.ok []

/-- An API operation against the controller, used to state frame properties of
traces of calls. -/
inductive ApiOp where
  | createOp (r : FHIRResource)
  | readOp (id : String)
  | searchOp (params : List (String × String))
  | updateOp (id : String) (r : FHIRResource)
  | deleteOp (id : String)
  | historyOp (id : String)

/-- The outcome of one API operation. -/
inductive ApiOutput where
  | resOut (x : Except FHIRError FHIRResource)
  | listOut (x : Except FHIRError (List FHIRResource))
  | unitOut (x : Except FHIRError Unit)

/-- Dispatch of one operation to the controller methods.  The TypeScript class
holds no mutable state, so each call's outcome depends on its arguments only. -/
def runOp : ApiOp → ApiOutput
  | ApiOp.createOp r => ApiOutput.resOut (FHIRResourceController.create r)
  | ApiOp.readOp id => ApiOutput.resOut (FHIRResourceController.read id)
  | ApiOp.searchOp ps => ApiOutput.listOut (FHIRResourceController.search ps)
  | ApiOp.updateOp id r => ApiOutput.resOut (FHIRResourceController.update id r)
  | ApiOp.deleteOp id => ApiOutput.unitOut (FHIRResourceController.delete id)
  | ApiOp.historyOp id => ApiOutput.listOut (PatientController.getPatientHistory id)

/-- The outcomes of a sequence of API calls. -/
def runTrace (ops : List ApiOp) : List ApiOutput :=
  ops.map runOp

/-- Modelled from the spec: the closed set of recognized resource kinds.  The
source imports `Patient, Observation` from its type module (src/fhir-api.ts
line 5); spec section 3 requires `resourceType` to match "one of a closed,
extensible set of known kinds". -/
def recognizedKinds : List String := ["Patient", "Observation"]

/-- The fixed gender enumeration of src/fhir-api.ts line 126 and spec
section 3. -/
def genderValues : List String := ["male", "female", "other", "unknown"]

/-- Modelled from the spec: the Validation Engine of section 4.1, whose
implementation beyond the presence check is absent from the repository
("Additional validation logic").  MissingField when `resourceType` is absent or
not a recognized kind; SchemaViolation when `gender` is outside its enumeration
or a name entry is missing both given and family. -/
def specValidate (r : FHIRResource) : Except FHIRError Unit :=
  match r.resourceType with
  | none => Except.error FHIRError.missingField
  | some t =>
    if t ∉ recognizedKinds then Except.error FHIRError.missingField
    else if (match r.gender with
             | none => false
             | some g => decide (g ∉ genderValues)) then
      Except.error FHIRError.schemaViolation
    else if (match r.name with
             | none => false
             | some ns => ns.any (fun n => decide (n.given = none ∧ n.family = none))) then
      Except.error FHIRError.schemaViolation
    else Except.ok ()

/-- Modelled from the spec: the per-id record of the Resource Store Controller
(spec sections 3 and 4.2): the current version number and snapshot, the
append-only version history (every stored version, keyed by version number),
and the tombstone flag set by `delete`. -/
structure StoreEntry where
  version : Nat
  current : FHIRResource
  history : List (Nat × FHIRResource)
  deleted : Bool
deriving DecidableEq, Repr

/-- Modelled from the spec: the state of the Resource Store Controller, which
"exclusively owns the canonical current version and the version history"
(spec section 3): entries keyed by id, a counter for server-assigned ids, and
the current timestamp used for `lastUpdated`. -/
structure Store where
  entries : List (String × StoreEntry)
  nextId : Nat
  now : String
deriving DecidableEq, Repr

/-- Entry lookup by id; the most recently written entry for an id wins. -/
def Store.find (s : Store) (id : String) : Option StoreEntry :=
  s.entries.lookup id

/-- Modelled from the spec: `create` of section 4.2.  The storage
implementation is absent from the repository (the source body reads
"Implementation for storage").  Rejects with InvalidState when `id` is already
set; runs the Validation Engine; assigns a fresh id, versionId 1 and
lastUpdated; stores the result as current version, appends it to the history
and returns it. -/
def Store.create (s : Store) (r : FHIRResource) :
    Except FHIRError (FHIRResource × Store) :=
  match r.id with
  | some _ => Except.error FHIRError.invalidState
  | none =>
    match specValidate r with
    | Except.error e => Except.error e
    | Except.ok _ =>
      let newId := "res-" ++ toString s.nextId
      let stored := { r with
        id := some newId,
        meta := some { versionId := some "1", lastUpdated := some s.now } }
      let entry : StoreEntry :=
        { version := 1, current := stored, history := [(1, stored)], deleted := false }
      Except.ok (stored, { s with entries := (newId, entry) :: s.entries,
                                  nextId := s.nextId + 1 })

/-- Modelled from the spec: `read` of section 4.2 ("returns current version or
fails NotFound"; after deletion "read subsequently fails Gone").  The source
body reads "Implementation for retrieval". -/
def Store.read (s : Store) (id : String) : Except FHIRError FHIRResource :=
  match s.find id with
  | none => Except.error FHIRError.notFound
  | some e => if e.deleted then Except.error FHIRError.gone else Except.ok e.current

/-- Modelled from the spec: `readVersion` of section 4.2 ("returns a specific
historical snapshot or fails NotFound").  History is preserved by deletion
(tombstone), so this consults the history regardless of the deleted flag. -/
def Store.readVersion (s : Store) (id : String) (v : Nat) :
    Except FHIRError FHIRResource :=
  match s.find id with
  | none => Except.error FHIRError.notFound
  | some e =>
    match e.history.lookup v with
    | none => Except.error FHIRError.notFound
    | some r => Except.ok r

/-- Shared step of `update`: increment the version, stamp id/meta, store as
current and append the new version to the history. -/
def Store.applyUpdate (s : Store) (id : String) (e : StoreEntry)
    (r : FHIRResource) : FHIRResource × Store :=
  let newV := e.version + 1
  let stored := { r with
    id := some id,
    meta := some { versionId := some (toString newV), lastUpdated := some s.now } }
  let entry : StoreEntry :=
    { version := newV, current := stored,
      history := e.history ++ [(newV, stored)], deleted := false }
  (stored, { s with entries := (id, entry) :: s.entries })

/-- Modelled from the spec: `update` of section 4.2, absent from the
repository ("Implementation for update").  NotFound when no current version
exists (absent id or tombstoned); then the Validation Engine runs; then a
caller-supplied optimistic-concurrency token that does not match the stored
version fails ConflictVersion; otherwise the version is incremented and the
new current version stored, the prior versions remaining in the history. -/
def Store.update (s : Store) (id : String) (token : Option String)
    (r : FHIRResource) : Except FHIRError (FHIRResource × Store) :=
  match s.find id with
  | none => Except.error FHIRError.notFound
  | some e =>
    if e.deleted then Except.error FHIRError.notFound
    else
      match specValidate r with
      | Except.error err => Except.error err
      | Except.ok _ =>
        match token with
        | some t =>
          if t = toString e.version then Except.ok (s.applyUpdate id e r)
          else Except.error FHIRError.conflictVersion
        | none => Except.ok (s.applyUpdate id e r)

/-- Modelled from the spec: `delete` of section 4.2, absent from the
repository ("Implementation for deletion").  NotFound when the id is absent;
Gone when already tombstoned; otherwise marks the entry as logically deleted,
leaving the history in place. -/
def Store.delete (s : Store) (id : String) : Except FHIRError Store :=
  match s.find id with
  | none => Except.error FHIRError.notFound
  | some e =>
    if e.deleted then Except.error FHIRError.gone
    else Except.ok { s with entries := (id, { e with deleted := true }) :: s.entries }

/-! ### Concrete fixtures -/

/-- A valid Patient candidate with no id set (the scenario of spec
section 8). -/
def patientJane : FHIRResource :=
  { resourceType := some "Patient", id := none, meta := none,
    name := some [{ given := some ["Jane"], family := some "Smith" }],
    birthDate := none, gender := some "female" }

/-- The same candidate with a client-supplied id, which `create` must
reject. -/
def patientWithId : FHIRResource :=
  { patientJane with id := some "p9" }

/-- A resource whose resourceType is set but is not a recognized kind. -/
def bogusKindResource : FHIRResource :=
  { resourceType := some "ZzzUnknownKind", id := none, meta := none,
    name := none, birthDate := none, gender := none }

/-- An empty store. -/
def store0 : Store :=
  { entries := [], nextId := 0, now := "2024-01-01T00:00:00Z" }

/-- Version-1 snapshot of a stored Patient. -/
def storedJaneV1 : FHIRResource :=
  { patientJane with
    id := some "p1",
    meta := some { versionId := some "1", lastUpdated := some "2024-01-05T00:00:00Z" } }

/-- Version-2 snapshot of the same Patient. -/
def storedJaneV2 : FHIRResource :=
  { patientJane with
    id := some "p1",
    gender := some "other",
    meta := some { versionId := some "2", lastUpdated := some "2024-01-06T00:00:00Z" } }

/-- A store entry whose current version is 2, with both versions in the
history. -/
def entryV2 : StoreEntry :=
  { version := 2, current := storedJaneV2,
    history := [(1, storedJaneV1), (2, storedJaneV2)], deleted := false }

/-- A store holding the version-2 Patient under id "p1". -/
def storeV2 : Store :=
  { entries := [("p1", entryV2)], nextId := 7, now := "2024-02-02T00:00:00Z" }

/-- The store after tombstoning "p1" in `storeV2`. -/
def storeV2del : Store :=
  { entries := [("p1", { entryV2 with deleted := true }), ("p1", entryV2)],
    nextId := 7, now := "2024-02-02T00:00:00Z" }

/-! ### Claim theorems -/

/-- C4 (counterexample): a candidate whose resourceType is set but is not one
of the recognized kinds passes `validateResource`, refuting "fails with
MissingField exactly when the candidate's resourceType is absent or is not one
of the closed set of recognized resource kinds". -/
theorem validateResource_accepts_unknown_kind :
    bogusKindResource.resourceType = some "ZzzUnknownKind" ∧
    "ZzzUnknownKind" ∉ recognizedKinds ∧
    (validateResource bogusKindResource).1 = Except.ok () :=
  ⟨rfl, by decide, rfl⟩

/-- C4 (amended): `validateResource` fails with MissingField exactly when the
candidate's resourceType is absent or the empty string (the JavaScript falsy
values); every candidate with a nonempty resourceType passes, with no
recognized-kind check performed. -/
theorem validateResource_missing_only (r : FHIRResource) :
    ((validateResource r).1 = Except.error FHIRError.missingField ↔
      (r.resourceType = none ∨ r.resourceType = some "")) ∧
    (∀ t, r.resourceType = some t → t ≠ "" →
      (validateResource r).1 = Except.ok ()) := by
  by_cases h : r.resourceType = none ∨ r.resourceType = some ""
  · refine ⟨⟨fun _ => h, fun _ => by simp [validateResource, h]⟩, ?_⟩
    intro t ht hne
    rcases h with h | h
    · rw [h] at ht; cases ht
    · rw [h] at ht
      injection ht with ht
      exact absurd ht.symm hne
  · simp [validateResource, h]

/-- Witness for the amended C4 theorem at a concrete valid Patient. -/
theorem validateResource_missing_only_witness :
    (validateResource patientJane).1 = Except.ok () :=
  (validateResource_missing_only patientJane).2 "Patient" rfl (by decide)

/-- C5 (counterexample): an unknown parameter name is mapped to a name/value
record by `createSearchParameters` and `search` succeeds with the empty list,
refuting "search fails with UnsupportedParameter, with the unknown name
rejected at the parameter-resolution layer". -/
theorem search_accepts_unknown_parameter :
    createSearchParameters [("definitelyUnknownParam", "x")] =
      [{ name := "definitelyUnknownParam", value := "x" }] ∧
    FHIRResourceController.search [("definitelyUnknownParam", "x")] =
      Except.ok [] :=
  ⟨rfl, rfl⟩

/-- C5 (amended): `createSearchParameters` maps every entry of the parameter
map to a name/value record, rejecting nothing, and `search` returns the empty
list for every parameter map. -/
theorem createSearchParameters_maps_all (params : List (String × String)) :
    (createSearchParameters params).length = params.length ∧
    (∀ kv, kv ∈ params →
      ({ name := kv.1, value := kv.2 } : SearchParameter) ∈
        createSearchParameters params) ∧
    FHIRResourceController.search params = Except.ok [] := by
  refine ⟨by simp [createSearchParameters], fun kv hkv => ?_, rfl⟩
  exact List.mem_map_of_mem _ hkv

/-- Witness for the amended C5 theorem at a concrete parameter map. -/
theorem createSearchParameters_maps_all_witness :
    ({ name := "gender", value := "female" } : SearchParameter) ∈
      createSearchParameters [("gender", "female")] :=
  (createSearchParameters_maps_all [("gender", "female")]).2.1
    ("gender", "female") (by simp)

/-- C7: `validateResource` leaves the candidate unchanged whether it succeeds
or fails; the function receives no store state at all, so no store state can
be altered. -/
theorem validateResource_preserves_candidate (r : FHIRResource) :
    (validateResource r).2 = r := by
  unfold validateResource
  split <;> rfl

/-- C8: the stubbed `PatientController.read` returns the empty object (every
field absent) for every id and never fails. -/
theorem read_returns_empty_object (id : String) :
    PatientController.read id = Except.ok emptyResource ∧
    emptyResource.resourceType = none ∧ emptyResource.id = none ∧
    emptyResource.meta = none ∧ emptyResource.name = none ∧
    emptyResource.birthDate = none ∧ emptyResource.gender = none ∧
    ∀ e, PatientController.read id ≠ Except.error e := by
  refine ⟨rfl, rfl, rfl, rfl, rfl, rfl, rfl, ?_⟩
  intro e h
  simp [PatientController.read, FHIRResourceController.read] at h

/-- Witness for C8 at a concrete id. -/
theorem read_returns_empty_object_witness :
    PatientController.read "p1" = Except.ok emptyResource ∧
    (PatientController.read "p1" = Except.error FHIRError.notFound → False) :=
  ⟨(read_returns_empty_object "p1").1,
   fun h => (read_returns_empty_object "p1").2.2.2.2.2.2.2 FHIRError.notFound h⟩

/-- C9: the stubbed `search` returns the empty list for every parameter map,
and `getPatientHistory` returns the empty list for every id. -/
theorem search_and_history_empty (params : List (String × String)) (id : String) :
    FHIRResourceController.search params = Except.ok [] ∧
    PatientController.getPatientHistory id = Except.ok [] :=
  ⟨rfl, rfl⟩

/-- C10: the stubbed `delete` succeeds for every id and changes nothing
observable: inserting a delete into any trace of API calls leaves every other
call's outcome unchanged. -/
theorem delete_total_and_frame (id : String) (pre post : List ApiOp) :
    FHIRResourceController.delete id = Except.ok () ∧
    runTrace (pre ++ ApiOp.deleteOp id :: post) =
      runTrace pre ++ ApiOutput.unitOut (Except.ok ()) :: runTrace post ∧
    runTrace (pre ++ post) = runTrace pre ++ runTrace post := by
  refine ⟨rfl, ?_, ?_⟩ <;>
    simp [runTrace, runOp, FHIRResourceController.delete]

/-- The resource stored by a successful `Store.create`. -/
def createdResource (s : Store) (r : FHIRResource) : FHIRResource :=
  { r with
    id := some ("res-" ++ toString s.nextId),
    meta := some { versionId := some "1", lastUpdated := some s.now } }

/-- The store state after a successful `Store.create`. -/
def createdStore (s : Store) (r : FHIRResource) : Store :=
  { s with
    entries := ("res-" ++ toString s.nextId,
      { version := 1, current := createdResource s r,
        history := [(1, createdResource s r)], deleted := false }) :: s.entries,
    nextId := s.nextId + 1 }

/-- Evaluation of `Store.create` on an id-free candidate that passes
validation. -/
theorem create_eq (s : Store) (r : FHIRResource) (hid : r.id = none)
    (hval : specValidate r = Except.ok ()) :
    s.create r = Except.ok (createdResource s r, createdStore s r) := by
  unfold Store.create createdResource createdStore
  rw [hid, hval]
  rfl

/-- C1: `Store.create` rejects a candidate whose id is already set with
InvalidState; a candidate with no id that passes validation is assigned a
fresh id, versionId 1 and lastUpdated, stored as current version, and the
stored resource — distinct from the unmodified input — is returned. -/
theorem create_assigns_identity (s : Store) (r : FHIRResource) :
    (∀ i, r.id = some i → s.create r = Except.error FHIRError.invalidState) ∧
    (r.id = none → specValidate r = Except.ok () →
      ∃ newId stored s₂,
        s.create r = Except.ok (stored, s₂) ∧
        stored.id = some newId ∧
        stored.meta = some { versionId := some "1", lastUpdated := some s.now } ∧
        s₂.read newId = Except.ok stored ∧
        stored ≠ r) := by
  constructor
  · intro i hi
    unfold Store.create
    rw [hi]
  · intro hid hval
    refine ⟨"res-" ++ toString s.nextId, createdResource s r, createdStore s r,
      create_eq s r hid hval, rfl, rfl, ?_, ?_⟩
    · simp [Store.read, Store.find, createdStore, List.lookup]
    · intro hcontra
      have h2 := congrArg FHIRResource.id hcontra
      rw [hid] at h2
      simp [createdResource] at h2

/-- Witness for C1: the id-bearing candidate is rejected, and a valid id-free
candidate is created in the empty store. -/
theorem create_assigns_identity_witness :
    store0.create patientWithId = Except.error FHIRError.invalidState ∧
    (∃ newId stored s₂,
      store0.create patientJane = Except.ok (stored, s₂) ∧
      stored.id = some newId ∧
      stored.meta = some { versionId := some "1", lastUpdated := some store0.now } ∧
      s₂.read newId = Except.ok stored ∧
      stored ≠ patientJane) :=
  ⟨(create_assigns_identity store0 patientWithId).1 "p9" rfl,
   (create_assigns_identity store0 patientJane).2 rfl rfl⟩

/-- C6: `Store.create` followed by `Store.read` of the assigned id returns a
resource equal to the input in every field except the server-assigned id,
versionId 1 and lastUpdated. -/
theorem create_read_roundtrip (s : Store) (r : FHIRResource)
    (hid : r.id = none) (hval : specValidate r = Except.ok ()) :
    ∃ newId stored s₂,
      s.create r = Except.ok (stored, s₂) ∧
      s₂.read newId = Except.ok stored ∧
      stored.resourceType = r.resourceType ∧
      stored.name = r.name ∧
      stored.birthDate = r.birthDate ∧
      stored.gender = r.gender ∧
      stored.id = some newId ∧
      stored.meta = some { versionId := some "1", lastUpdated := some s.now } := by
  refine ⟨"res-" ++ toString s.nextId, createdResource s r, createdStore s r,
    create_eq s r hid hval, ?_, rfl, rfl, rfl, rfl, rfl, rfl⟩
  simp [Store.read, Store.find, createdStore, List.lookup]

/-- Witness for C6 on the empty store and a valid Patient candidate. -/
theorem create_read_roundtrip_witness :
    ∃ newId stored s₂,
      store0.create patientJane = Except.ok (stored, s₂) ∧
      s₂.read newId = Except.ok stored ∧
      stored.resourceType = patientJane.resourceType ∧
      stored.name = patientJane.name ∧
      stored.birthDate = patientJane.birthDate ∧
      stored.gender = patientJane.gender ∧
      stored.id = some newId ∧
      stored.meta = some { versionId := some "1", lastUpdated := some store0.now } :=
  create_read_roundtrip store0 patientJane rfl rfl

/-- C2: on a stored resource whose current version is 2, `Store.update` with a
non-matching concurrency token fails ConflictVersion; with the matching token
it succeeds and the stored resource afterwards carries versionId 3; update on
an id with no current version (absent or tombstoned) fails NotFound. -/
theorem update_concurrency (s : Store) (id : String) (r : FHIRResource) :
    (∀ e, s.find id = some e → e.deleted = false → e.version = 2 →
      specValidate r = Except.ok () →
        (∀ t, t ≠ "2" →
          s.update id (some t) r = Except.error FHIRError.conflictVersion) ∧
        (∃ stored s₂, s.update id (some "2") r = Except.ok (stored, s₂) ∧
          stored.meta = some { versionId := some "3", lastUpdated := some s.now } ∧
          s₂.read id = Except.ok stored)) ∧
    (∀ token, s.find id = none →
      s.update id token r = Except.error FHIRError.notFound) ∧
    (∀ token e, s.find id = some e → e.deleted = true →
      s.update id token r = Except.error FHIRError.notFound) := by
  refine ⟨?_, ?_, ?_⟩
  · intro e hfind hdel hver hval
    have h2 : toString e.version = "2" := by rw [hver]; decide
    constructor
    · intro t ht
      unfold Store.update
      rw [hfind]
      simp [hdel, hval, h2, ht]
    · have hupd : s.update id (some "2") r = Except.ok (s.applyUpdate id e r) := by
        unfold Store.update
        rw [hfind]
        simp [hdel, hval, h2]
      have h3 : toString (e.version + 1) = "3" := by rw [hver]; decide
      refine ⟨(s.applyUpdate id e r).1, (s.applyUpdate id e r).2, hupd, ?_, ?_⟩
      · simp [Store.applyUpdate, h3]
      · simp [Store.read, Store.find, Store.applyUpdate, List.lookup]
  · intro token hnone
    unfold Store.update
    rw [hnone]
  · intro token e hfind hdel
    unfold Store.update
    rw [hfind]
    simp [hdel]

/-- Witness for C2 on a concrete store holding a version-2 Patient. -/
theorem update_concurrency_witness :
    storeV2.update "p1" (some "9") patientJane =
      Except.error FHIRError.conflictVersion ∧
    (∃ stored s₂, storeV2.update "p1" (some "2") patientJane = Except.ok (stored, s₂) ∧
      stored.meta = some { versionId := some "3", lastUpdated := some storeV2.now } ∧
      s₂.read "p1" = Except.ok stored) ∧
    storeV2.update "zz" none patientJane = Except.error FHIRError.notFound :=
  ⟨((update_concurrency storeV2 "p1" patientJane).1 entryV2 rfl rfl rfl rfl).1
      "9" (by decide),
   ((update_concurrency storeV2 "p1" patientJane).1 entryV2 rfl rfl rfl rfl).2,
   (update_concurrency storeV2 "zz" patientJane).2.1 none rfl⟩

/-- C3: after a successful `Store.delete`, `read` fails Gone while
`readVersion` still returns every previously stored version; `delete` on an
absent id fails NotFound. -/
theorem delete_preserves_history (s : Store) (id : String) :
    (∀ s₂, s.delete id = Except.ok s₂ →
      s₂.read id = Except.error FHIRError.gone ∧
      ∀ v rv e, s.find id = some e → e.history.lookup v = some rv →
        s₂.readVersion id v = Except.ok rv) ∧
    (s.find id = none → s.delete id = Except.error FHIRError.notFound) := by
  constructor
  · intro s₂ h
    unfold Store.delete at h
    cases hfind : s.find id with
    | none =>
      rw [hfind] at h
      simp at h
    | some e =>
      rw [hfind] at h
      by_cases hd : e.deleted
      · simp [hd] at h
      · simp [hd] at h
        subst h
        constructor
        · simp [Store.read, Store.find, List.lookup]
        · intro v rv e₀ hfind₀ hhist
          injection hfind₀ with he
          subst he
          simp [Store.readVersion, Store.find, List.lookup, hhist]
  · intro hnone
    unfold Store.delete
    rw [hnone]

/-- Witness for C3 on the concrete version-2 store: after deleting "p1", read
fails Gone and the version-1 snapshot is still retrievable. -/
theorem delete_preserves_history_witness :
    storeV2.delete "p1" = Except.ok storeV2del ∧
    storeV2del.read "p1" = Except.error FHIRError.gone ∧
    storeV2del.readVersion "p1" 1 = Except.ok storedJaneV1 ∧
    storeV2.delete "zz" = Except.error FHIRError.notFound :=
  ⟨rfl,
   ((delete_preserves_history storeV2 "p1").1 storeV2del rfl).1,
   ((delete_preserves_history storeV2 "p1").1 storeV2del rfl).2 1 storedJaneV1
     entryV2 rfl rfl,
   (delete_preserves_history storeV2 "zz").2 rfl⟩

end Interop
